import Mathlib

/-!
Shallow embedding of the gothite window manager (src/main.rs).

The manager's in-memory state (`WindowManager`, the registry of managed
windows, the drag state) is translated into plain Lean structures.  Calls
into the X server and into cairo are modelled as an emitted command trace
(`Cmd`); a small server model (`Server`) interprets the state-changing
commands so that queries (`XGetWindowAttributes`, `XGetGeometry`,
`XQueryTree`) can be answered from it.  Rust machine integers are
modelled as `Int`/`Nat` with explicit wrapping at 2^32 where the source
performs `as i32` / `as u32` casts or 32-bit arithmetic.
-/

/-! ### 32-bit integer arithmetic (Rust `i32` / `u32` semantics) -/

/-- Reduce an integer into the `i32` range, as Rust wrapping arithmetic does. -/
def wrapI32 (z : Int) : Int :=
  let m := z % 4294967296
  if m < 2147483648 then m else m - 4294967296

/-- Rust `u32 as i32` (the `Vector2D::as_i32s` component cast). -/
def u32ToI32 (n : Nat) : Int := wrapI32 (n : Int)

/-- Rust `i32 as u32` (the `Vector2D::as_u32s` component cast). -/
def i32ToU32 (z : Int) : Nat := (z % 4294967296).toNat

/-- `i32` addition with release-mode wrapping. -/
def addI32 (a b : Int) : Int := wrapI32 (a + b)

/-- `i32` subtraction with release-mode wrapping. -/
def subI32 (a b : Int) : Int := wrapI32 (a - b)

/-- The value fits in an `i32`, so the wrapping casts are the identity on it. -/
def inI32 (z : Int) : Prop := -2147483648 ≤ z ∧ z < 2147483648

instance (z : Int) : Decidable (inI32 z) := by unfold inI32; infer_instance

theorem wrapI32_bounds (z : Int) : -2147483648 ≤ wrapI32 z ∧ wrapI32 z < 2147483648 := by
  unfold wrapI32
  simp only []
  constructor <;> (split <;> omega)

theorem wrapI32_eq_self (z : Int) (h : inI32 z) : wrapI32 z = z := by
  unfold wrapI32
  obtain ⟨hl, hr⟩ := h
  simp only []
  split <;> omega

theorem u32ToI32_eq_self (n : Nat) (h : n < 2147483648) : u32ToI32 n = (n : Int) := by
  unfold u32ToI32
  exact wrapI32_eq_self _ ⟨by omega, by omega⟩

theorem i32ToU32_eq_toNat (z : Int) (h0 : 0 ≤ z) (h : z < 4294967296) : i32ToU32 z = z.toNat := by
  unfold i32ToU32
  rw [Int.emod_eq_of_lt h0 h]

/-! ### 2D integer vectors (the `vector2d` crate, component-wise) -/

/-- `Vector2D<i32>` -/
structure Vec2i where
  x : Int
  y : Int
deriving DecidableEq

/-- `Vector2D<u32>` -/
structure Vec2u where
  x : Nat
  y : Nat
deriving DecidableEq

/-! ### Data model: `Window`, `WindowManager` -/

/-- X window identifiers (`xlib::Window`). -/
abbrev WinId := Nat

/-- The per-managed-window record (`struct Window` in the source).  The raw
cairo pointers `decoration_surface` / `decoration_context` are modelled as
opaque resource identifiers. -/
structure Window where
  frame : WinId
  decoration_surface : Nat
  decoration_context : Nat
  drag_start : Vec2i
  drag_start_size : Vec2u
deriving DecidableEq

/-- The `active_window : *const Window` raw pointer.  `ref w` is a pointer to
the registry entry of client `w`; `indet` models `std::mem::uninitialized()`
(assigned at startup and by `on_button_release`) — an indeterminate bit
pattern, not a definite null/cleared value. -/
inductive ActiveRef where
  | indet : ActiveRef
  | ref : WinId → ActiveRef
deriving DecidableEq

/-- The registry: `HashMap<xlib::Window, Window>`, modelled as an association
list whose `insert` replaces any existing binding, as `HashMap::insert` does. -/
abbrev Registry := List (WinId × Window)

def regLookup (r : Registry) (w : WinId) : Option Window :=
  (r.find? (fun p => p.1 == w)).map (fun p => p.2)

def regInsert (r : Registry) (w : WinId) (win : Window) : Registry :=
  (w, win) :: r.filter (fun p => p.1 != w)

def regRemove (r : Registry) (w : WinId) : Registry :=
  r.filter (fun p => p.1 != w)

def regContains (r : Registry) (w : WinId) : Bool :=
  (regLookup r w).isSome

/-- `struct WindowManager` (the display handle is an external connection and
is omitted; `next_id` models the X server's allocation of fresh resource
identifiers for created windows and cairo objects). -/
structure WindowManager where
  root : WinId
  windows : Registry
  drag_start : Vec2i
  active_window : ActiveRef
  next_id : Nat
deriving DecidableEq

/-! ### Registry lemmas -/

theorem find?_key_filter_ne (w v : WinId) (h : v ≠ w) :
    ∀ r : Registry,
      (r.filter (fun p => p.1 != w)).find? (fun p => p.1 == v) = r.find? (fun p => p.1 == v)
  | [] => rfl
  | p :: r => by
    by_cases hw : p.1 = w
    · have hdrop : (p.1 != w) = false := by simp [hw]
      have hv : ((fun p : WinId × Window => p.1 == v) p) = false := by
        simp only [hw]
        exact beq_eq_false_iff_ne.mpr (Ne.symm h)
      rw [List.filter_cons, hdrop]
      simp only [Bool.false_eq_true, if_false]
      rw [find?_key_filter_ne w v h r, List.find?_cons_of_neg _ (by simp [hv])]
    · have hkeep : (p.1 != w) = true := by simp [hw]
      rw [List.filter_cons, hkeep]
      simp only [if_true]
      by_cases hv : p.1 = v
      · rw [List.find?_cons_of_pos _ (by simp [hv]), List.find?_cons_of_pos _ (by simp [hv])]
      · rw [List.find?_cons_of_neg _ (by simp [hv]), List.find?_cons_of_neg _ (by simp [hv])]
        exact find?_key_filter_ne w v h r

theorem regLookup_filter_ne (r : Registry) (w v : WinId) (h : v ≠ w) :
    regLookup (r.filter (fun p => p.1 != w)) v = regLookup r v := by
  unfold regLookup
  rw [find?_key_filter_ne w v h r]

theorem regLookup_insert_self (r : Registry) (w : WinId) (win : Window) :
    regLookup (regInsert r w win) w = some win := by
  unfold regInsert regLookup
  rw [List.find?_cons_of_pos _ (by simp)]
  rfl

theorem regLookup_insert_ne (r : Registry) (w v : WinId) (win : Window) (h : v ≠ w) :
    regLookup (regInsert r w win) v = regLookup r v := by
  unfold regInsert regLookup
  rw [List.find?_cons_of_neg _ (by simp [Ne.symm h])]
  exact find?_key_filter_ne w v h r ▸ rfl

theorem regLookup_remove_self (r : Registry) (w : WinId) :
    regLookup (regRemove r w) w = none := by
  unfold regRemove regLookup
  induction r with
  | nil => rfl
  | cons p r ih =>
    by_cases hw : p.1 = w
    · have hdrop : (p.1 != w) = false := by simp [hw]
      rw [List.filter_cons, hdrop]
      simp only [Bool.false_eq_true, if_false]
      exact ih
    · have hkeep : (p.1 != w) = true := by simp [hw]
      rw [List.filter_cons, hkeep]
      simp only [if_true]
      rw [List.find?_cons_of_neg _ (by simp [hw])]
      exact ih

theorem regLookup_remove_ne (r : Registry) (w v : WinId) (h : v ≠ w) :
    regLookup (regRemove r w) v = regLookup r v :=
  regLookup_filter_ne r w v h

theorem regFilter_of_not_mem (r : Registry) (w : WinId) (h : regLookup r w = none) :
    r.filter (fun p => p.1 != w) = r := by
  induction r with
  | nil => rfl
  | cons p r ih =>
    by_cases hw : p.1 = w
    · exfalso
      unfold regLookup at h
      rw [List.find?_cons_of_pos _ (by simp [hw])] at h
      simp at h
    · have hkeep : (p.1 != w) = true := by simp [hw]
      unfold regLookup at h
      rw [List.find?_cons_of_neg _ (by simp [hw])] at h
      rw [List.filter_cons, hkeep]
      simp only [if_true]
      rw [ih h]

theorem regInsert_length_of_not_mem (r : Registry) (w : WinId) (win : Window)
    (h : regLookup r w = none) : (regInsert r w win).length = r.length + 1 := by
  simp [regInsert, regFilter_of_not_mem r w h]

/-! ### Server model

The X server is modelled as a map from window identifier to its geometry
and attributes; the state-changing commands the manager issues are
interpreted into it so that the manager's queries can be answered. -/

/-- Server-side per-window state (geometry, parentage and the attributes
`create_window_frame` inspects). -/
structure SrvWin where
  x : Int
  y : Int
  width : Nat
  height : Nat
  parent : WinId
  override_redirect : Bool
  viewable : Bool
deriving DecidableEq

abbrev Server := List (WinId × SrvWin)

def srvLookup (s : Server) (w : WinId) : Option SrvWin :=
  (s.find? (fun p => p.1 == w)).map (fun p => p.2)

def srvInsert (s : Server) (w : WinId) (sw : SrvWin) : Server :=
  (w, sw) :: s.filter (fun p => p.1 != w)

def srvUpdate (s : Server) (w : WinId) (f : SrvWin → SrvWin) : Server :=
  s.map (fun p => if p.1 == w then (p.1, f p.2) else p)

/-- The children of `p`, as `XQueryTree` reports them. -/
def srvChildren (s : Server) (p : WinId) : List WinId :=
  (s.filter (fun q => q.2.parent == p)).map (fun q => q.1)

/-- The reply to `XGetWindowAttributes`.  `width`/`height` are `c_int` in
xlib, hence `Int` here; `viewable` is `map_state == IsViewable`.  When the
query fails the source leaves the output struct uninitialized; the model
returns zeroes. -/
structure XWindowAttributes where
  x : Int
  y : Int
  width : Int
  height : Int
  override_redirect : Bool
  viewable : Bool
deriving DecidableEq

def getWindowAttributes (s : Server) (w : WinId) : XWindowAttributes :=
  match srvLookup s w with
  | some sw => ⟨sw.x, sw.y, (sw.width : Int), (sw.height : Int), sw.override_redirect, sw.viewable⟩
  | none => ⟨0, 0, 0, 0, false, false⟩

/-! ### Commands issued to the server and to cairo -/

/-- One call the manager makes against the X server or cairo.  Sizes passed
as `unsigned int` are `Nat`; positions and sizes passed as `c_int` are
`Int`.  `drawDecoration` stands for the external decoration renderer
(`draw_window_decoration`), whose internal painting is out of scope. -/
inductive Cmd where
  | createWindow (w : WinId) (parent : WinId) (x y : Int) (width height : Nat)
  | destroyWindow (w : WinId)
  | reparentWindow (w : WinId) (parent : WinId) (x y : Int)
  | mapWindow (w : WinId)
  | unmapWindow (w : WinId)
  | resizeWindow (w : WinId) (width height : Nat)
  | moveWindow (w : WinId) (x y : Int)
  | raiseWindow (w : WinId)
  | setInputFocus (w : WinId)
  | grabButton (w : WinId) (button modifier : Nat)
  | grabKey (w : WinId) (key modifier : Nat)
  | addToSaveSet (w : WinId)
  | removeFromSaveSet (w : WinId)
  | surfaceCreate (id : Nat) (frame : WinId) (width height : Int)
  | contextCreate (id : Nat) (surface : Nat)
  | surfaceSetSize (id : Nat) (width height : Int)
  | surfaceDestroy (id : Nat)
  | contextDestroy (id : Nat)
  | drawDecoration (frame : WinId) (context : Nat)
deriving DecidableEq

/-- Interpret a command into the server model.  Grabs, save-set changes,
stacking, focus and the cairo calls do not change the modelled per-window
geometry state. -/
def applyCmd (s : Server) : Cmd → Server
  | Cmd.createWindow w parent x y width height => srvInsert s w ⟨x, y, width, height, parent, false, false⟩
  | Cmd.destroyWindow w => s.filter (fun p => p.1 != w)
  | Cmd.reparentWindow w parent x y => srvUpdate s w (fun sw => { sw with parent := parent, x := x, y := y })
  | Cmd.mapWindow w => srvUpdate s w (fun sw => { sw with viewable := true })
  | Cmd.unmapWindow w => srvUpdate s w (fun sw => { sw with viewable := false })
  | Cmd.resizeWindow w width height => srvUpdate s w (fun sw => { sw with width := width, height := height })
  | Cmd.moveWindow w x y => srvUpdate s w (fun sw => { sw with x := x, y := y })
  | _ => s

def applyCmds (s : Server) (cs : List Cmd) : Server :=
  cs.foldl applyCmd s

/-- The server-side window a command mutates, if any. -/
def cmdWindow : Cmd → Option WinId
  | Cmd.createWindow w _ _ _ _ _ => some w
  | Cmd.destroyWindow w => some w
  | Cmd.reparentWindow w _ _ _ => some w
  | Cmd.mapWindow w => some w
  | Cmd.unmapWindow w => some w
  | Cmd.resizeWindow w _ _ => some w
  | Cmd.moveWindow w _ _ => some w
  | _ => none

/-! ### Server lemmas -/

theorem srvFind?_filter_ne (w v : WinId) (h : v ≠ w) :
    ∀ s : Server,
      (s.filter (fun p => p.1 != w)).find? (fun p => p.1 == v) = s.find? (fun p => p.1 == v)
  | [] => rfl
  | p :: s => by
    by_cases hw : p.1 = w
    · have hdrop : (p.1 != w) = false := by simp [hw]
      rw [List.filter_cons, hdrop]
      simp only [Bool.false_eq_true, if_false]
      rw [srvFind?_filter_ne w v h s, List.find?_cons_of_neg _ (by simp [hw, Ne.symm h])]
    · have hkeep : (p.1 != w) = true := by simp [hw]
      rw [List.filter_cons, hkeep]
      simp only [if_true]
      by_cases hv : p.1 = v
      · rw [List.find?_cons_of_pos _ (by simp [hv]), List.find?_cons_of_pos _ (by simp [hv])]
      · rw [List.find?_cons_of_neg _ (by simp [hv]), List.find?_cons_of_neg _ (by simp [hv])]
        exact srvFind?_filter_ne w v h s

theorem srvLookup_insert_ne (s : Server) (w v : WinId) (sw : SrvWin) (h : v ≠ w) :
    srvLookup (srvInsert s w sw) v = srvLookup s v := by
  unfold srvInsert srvLookup
  rw [List.find?_cons_of_neg _ (by simp [Ne.symm h])]
  rw [srvFind?_filter_ne w v h s]

theorem srvLookup_update_ne (s : Server) (w v : WinId) (f : SrvWin → SrvWin) (h : v ≠ w) :
    srvLookup (srvUpdate s w f) v = srvLookup s v := by
  unfold srvUpdate srvLookup
  induction s with
  | nil => rfl
  | cons p s ih =>
    by_cases hw : p.1 = w
    · rw [List.map_cons, if_pos (by simp [hw])]
      rw [List.find?_cons_of_neg _ (by simp [hw, Ne.symm h]),
        List.find?_cons_of_neg _ (by simp [hw, Ne.symm h])]
      exact ih
    · rw [List.map_cons, if_neg (by simp [hw])]
      by_cases hv : p.1 = v
      · rw [List.find?_cons_of_pos _ (by simp [hv]), List.find?_cons_of_pos _ (by simp [hv])]
      · rw [List.find?_cons_of_neg _ (by simp [hv]), List.find?_cons_of_neg _ (by simp [hv])]
        exact ih

theorem srvLookup_filter_ne (s : Server) (w v : WinId) (h : v ≠ w) :
    srvLookup (s.filter (fun p => p.1 != w)) v = srvLookup s v := by
  unfold srvLookup
  rw [srvFind?_filter_ne w v h s]

theorem srvLookup_applyCmd_ne (s : Server) (c : Cmd) (v : WinId) (h : cmdWindow c ≠ some v) :
    srvLookup (applyCmd s c) v = srvLookup s v := by
  cases c with
  | createWindow w parent x y width height =>
    exact srvLookup_insert_ne s w v _ (fun hv => h (by rw [cmdWindow, hv]))
  | destroyWindow w =>
    exact srvLookup_filter_ne s w v (fun hv => h (by rw [cmdWindow, hv]))
  | reparentWindow w parent x y =>
    exact srvLookup_update_ne s w v (fun sw => { sw with parent := parent, x := x, y := y })
      (fun hv => h (by rw [cmdWindow, hv]))
  | mapWindow w =>
    exact srvLookup_update_ne s w v (fun sw => { sw with viewable := true })
      (fun hv => h (by rw [cmdWindow, hv]))
  | unmapWindow w =>
    exact srvLookup_update_ne s w v (fun sw => { sw with viewable := false })
      (fun hv => h (by rw [cmdWindow, hv]))
  | resizeWindow w width height =>
    exact srvLookup_update_ne s w v (fun sw => { sw with width := width, height := height })
      (fun hv => h (by rw [cmdWindow, hv]))
  | moveWindow w x y =>
    exact srvLookup_update_ne s w v (fun sw => { sw with x := x, y := y })
      (fun hv => h (by rw [cmdWindow, hv]))
  | raiseWindow w => rfl
  | setInputFocus w => rfl
  | grabButton w b m => rfl
  | grabKey w k m => rfl
  | addToSaveSet w => rfl
  | removeFromSaveSet w => rfl
  | surfaceCreate i f wd ht => rfl
  | contextCreate i sf => rfl
  | surfaceSetSize i wd ht => rfl
  | surfaceDestroy i => rfl
  | contextDestroy i => rfl
  | drawDecoration f c => rfl

theorem srvLookup_applyCmds_ne (v : WinId) :
    ∀ (cs : List Cmd) (s : Server), (∀ c ∈ cs, cmdWindow c ≠ some v) →
      srvLookup (applyCmds s cs) v = srvLookup s v
  | [], s, _ => rfl
  | c :: cs, s, h => by
    unfold applyCmds
    rw [List.foldl_cons]
    have h1 : srvLookup (applyCmd s c) v = srvLookup s v :=
      srvLookup_applyCmd_ne s c v (h c (List.mem_cons_self c cs))
    have h2 := srvLookup_applyCmds_ne v cs (applyCmd s c)
      (fun c' hc' => h c' (List.mem_cons_of_mem c hc'))
    unfold applyCmds at h2
    rw [h2, h1]

/-! ### Constants (values as in x11 / the source) -/

def DECORATION_PADDING : Int := 10

def Mod1Mask : Nat := 8

def Button1Mask : Nat := 256

def Button3Mask : Nat := 1024

/-! ### Event structures (the fields the handlers read) -/

structure XMapRequestEvent where
  window : WinId
deriving DecidableEq

structure XUnmapEvent where
  window : WinId
  event : WinId
deriving DecidableEq

structure XButtonEvent where
  window : WinId
  x_root : Int
  y_root : Int
deriving DecidableEq

structure XMotionEvent where
  window : WinId
  x_root : Int
  y_root : Int
  state : Nat
deriving DecidableEq

structure XExposeEvent where
  window : WinId
deriving DecidableEq

/-! ### The manager's operations (translated from src/main.rs)

Each handler returns the updated manager state together with the list of
server/cairo calls it issues, in program order.  Handlers that take the
manager by shared reference in the source (`&WindowManager`) return only
the command list. -/

/-- `resize_window` (src/main.rs:140-157): clamp the dragged size to a
floor of 10 per axis, resize the frame to the padded size, the client to
the clamped size, and the cairo surface to the frame size. -/
def resize_window (_wm : WindowManager) (w : WinId) (win : Window) (delta : Vec2i) : List Cmd :=
  let ndx := addI32 (u32ToI32 win.drag_start_size.x) delta.x
  let ndy := addI32 (u32ToI32 win.drag_start_size.y) delta.y
  let cx := i32ToU32 (max 10 ndx)
  let cy := i32ToU32 (max 10 ndy)
  let width := (cx + 20) % 4294967296
  let height := (cy + 20) % 4294967296
  [Cmd.resizeWindow win.frame width height,
   Cmd.resizeWindow w cx cy,
   Cmd.surfaceSetSize win.decoration_surface (u32ToI32 width) (u32ToI32 height)]

/-- `move_window` (src/main.rs:162-168): reposition the frame at
`drag_start + delta`. -/
def move_window (_wm : WindowManager) (_w : WinId) (win : Window) (delta : Vec2i) : List Cmd :=
  [Cmd.moveWindow win.frame (addI32 win.drag_start.x delta.x) (addI32 win.drag_start.y delta.y)]

/-- `create_window_frame` (src/main.rs:312-384).  Reads the client's
attributes, skips pre-existing windows that are override-redirected or not
viewable, otherwise creates the padded frame, installs the input grabs,
reparents the client into the frame, maps the frame, allocates the cairo
surface/context and inserts the record into the registry (replacing any
existing binding, as `HashMap::insert` does). -/
def create_window_frame (srv : Server) (wm : WindowManager) (w : WinId) (early : Bool) :
    WindowManager × List Cmd :=
  let attrs := getWindowAttributes srv w
  if early && (attrs.override_redirect || !attrs.viewable) then
    (wm, [])
  else
    let frame := wm.next_id
    let surface := wm.next_id + 1
    let context := wm.next_id + 2
    let fw := i32ToU32 (addI32 attrs.width (DECORATION_PADDING * 2))
    let fh := i32ToU32 (addI32 attrs.height (DECORATION_PADDING * 2))
    let win : Window := ⟨frame, surface, context, ⟨0, 0⟩, ⟨0, 0⟩⟩
    ({ wm with windows := regInsert wm.windows w win, next_id := wm.next_id + 3 },
     [Cmd.createWindow frame wm.root attrs.x attrs.y fw fh,
      Cmd.grabButton w 1 Mod1Mask,
      Cmd.grabButton w 3 Mod1Mask,
      Cmd.grabKey w 65473 Mod1Mask,
      Cmd.grabKey w 65289 Mod1Mask,
      Cmd.addToSaveSet w,
      Cmd.reparentWindow w frame DECORATION_PADDING DECORATION_PADDING,
      Cmd.mapWindow frame,
      Cmd.surfaceCreate surface frame (addI32 attrs.width (DECORATION_PADDING * 2))
        (addI32 attrs.height (DECORATION_PADDING * 2)),
      Cmd.contextCreate context surface])

/-- `remove_window_frame` (src/main.rs:289-307): no-op when the window is
not registered; otherwise destroy the cairo surface and context, unmap the
frame, reparent the client back to the root at (0,0), drop it from the
save-set, destroy the frame, and remove the registry entry. -/
def remove_window_frame (wm : WindowManager) (w : WinId) : WindowManager × List Cmd :=
  match regLookup wm.windows w with
  | none => (wm, [])
  | some win =>
    ({ wm with windows := regRemove wm.windows w },
     [Cmd.surfaceDestroy win.decoration_surface,
      Cmd.contextDestroy win.decoration_context,
      Cmd.unmapWindow win.frame,
      Cmd.reparentWindow w wm.root 0 0,
      Cmd.removeFromSaveSet w,
      Cmd.destroyWindow win.frame])

/-- `on_unmap_notify` (src/main.rs:396-418): ignore unmanaged windows and
events whose `event` field is the root; otherwise issue the frame teardown
commands inline and then call `remove_window_frame`. -/
def on_unmap_notify (wm : WindowManager) (e : XUnmapEvent) : WindowManager × List Cmd :=
  match regLookup wm.windows e.window with
  | none => (wm, [])
  | some win =>
    if e.event == wm.root then
      (wm, [])
    else
      let pre := [Cmd.unmapWindow win.frame,
                  Cmd.reparentWindow e.window wm.root 0 0,
                  Cmd.removeFromSaveSet e.window,
                  Cmd.destroyWindow win.frame]
      let r := remove_window_frame wm e.window
      (r.1, pre ++ r.2)

/-- `on_map_request` (src/main.rs:430-436): create the frame (no pre-existing
check) and map the client. -/
def on_map_request (srv : Server) (wm : WindowManager) (e : XMapRequestEvent) :
    WindowManager × List Cmd :=
  let r := create_window_frame srv wm e.window false
  (r.1, r.2 ++ [Cmd.mapWindow e.window])

/-- The pointer comparison `_wm.active_window != win` of `on_motion_notify`.
A live reference compares equal exactly to its own registry entry; for the
indeterminate pointer left by `mem::uninitialized()` the outcome depends on
the leftover bit pattern, supplied here as `oracle`. -/
def activeMatches (oracle : WinId → Bool) : ActiveRef → WinId → Bool
  | ActiveRef.indet, w => oracle w
  | ActiveRef.ref v, w => v == w

/-- The delta a motion event produces: pointer root position minus the
drag anchor recorded at button press. -/
def motionDelta (wm : WindowManager) (e : XMotionEvent) : Vec2i :=
  ⟨subI32 e.x_root wm.drag_start.x, subI32 e.y_root wm.drag_start.y⟩

/-- `on_motion_notify` (src/main.rs:441-461): ignore unmanaged windows and
windows other than the active drag target; with Mod1 held, Button1 moves
and otherwise Button3 resizes, using the delta from the press anchor. -/
def on_motion_notify (oracle : WinId → Bool) (wm : WindowManager) (e : XMotionEvent) : List Cmd :=
  match regLookup wm.windows e.window with
  | none => []
  | some win =>
    if activeMatches oracle wm.active_window e.window then
      if e.state &&& Mod1Mask ≠ 0 then
        if e.state &&& Button1Mask ≠ 0 then
          move_window wm e.window win (motionDelta wm e)
        else if e.state &&& Button3Mask ≠ 0 then
          resize_window wm e.window win (motionDelta wm e)
        else []
      else []
    else []

/-- `on_button_press` (src/main.rs:510-548): for a managed window, read the
geometry of its frame (`XGetGeometry`; on failure the zero-initialised
locals are kept), raise the frame, mark the window active, and record the
press position and the frame geometry as the drag origin. -/
def on_button_press (srv : Server) (wm : WindowManager) (e : XButtonEvent) :
    WindowManager × List Cmd :=
  match regLookup wm.windows e.window with
  | none => (wm, [])
  | some win =>
    let gx := match srvLookup srv win.frame with | some sw => sw.x | none => 0
    let gy := match srvLookup srv win.frame with | some sw => sw.y | none => 0
    let gw := match srvLookup srv win.frame with | some sw => sw.width | none => 0
    let gh := match srvLookup srv win.frame with | some sw => sw.height | none => 0
    ({ wm with
        windows := regInsert wm.windows e.window
          { win with drag_start := ⟨gx, gy⟩, drag_start_size := ⟨gw, gh⟩ },
        drag_start := ⟨e.x_root, e.y_root⟩,
        active_window := ActiveRef.ref e.window },
     [Cmd.raiseWindow win.frame])

/-- `on_button_release` (src/main.rs:553-555): assigns
`std::mem::uninitialized()` to `active_window` — an indeterminate value,
not a definite null. -/
def on_button_release (wm : WindowManager) (_e : XButtonEvent) : WindowManager × List Cmd :=
  ({ wm with active_window := ActiveRef.indet }, [])

/-- Result of `on_expose`: either the issued commands, or a Rust panic from
`Option::unwrap` on `None`. -/
inductive ExposeResult where
  | ok : List Cmd → ExposeResult
  | panicked : ExposeResult
deriving DecidableEq

/-- `on_expose` (src/main.rs:596-625): query the exposed window's children;
on query failure return; if there is a first child, look it up in the
registry with `.unwrap()` — which panics when the child is not registered —
and draw the decoration. -/
def on_expose (srv : Server) (wm : WindowManager) (e : XExposeEvent) : ExposeResult :=
  match srvLookup srv e.window with
  | none => ExposeResult.ok []
  | some _ =>
    match srvChildren srv e.window with
    | [] => ExposeResult.ok []
    | c :: _ =>
      match regLookup wm.windows c with
      | none => ExposeResult.panicked
      | some win => ExposeResult.ok [Cmd.drawDecoration win.frame win.decoration_context]

/-! ### The event dispatcher and the startup scan -/

/-- The events of the main loop that the claims exercise, with the fields
their handlers read. -/
inductive XEvent where
  | mapRequest (window : WinId)
  | unmapNotify (window : WinId) (event : WinId)
  | buttonPress (window : WinId) (x_root y_root : Int)
  | buttonRelease (window : WinId)
  | motionNotify (window : WinId) (x_root y_root : Int) (state : Nat)
  | expose (window : WinId)
deriving DecidableEq

/-- Outcome of dispatching one event: the next server and manager state
with the commands issued, or a process-terminating panic. -/
inductive StepResult where
  | next : Server → WindowManager → List Cmd → StepResult
  | panicked : StepResult
deriving DecidableEq

/-- One iteration of the `main` event loop (src/main.rs:689-730): dispatch
the event to its handler and interpret the issued commands into the server
model. -/
def step (oracle : WinId → Bool) (srv : Server) (wm : WindowManager) : XEvent → StepResult
  | XEvent.mapRequest w =>
    let r := on_map_request srv wm ⟨w⟩
    StepResult.next (applyCmds srv r.2) r.1 r.2
  | XEvent.unmapNotify w ev =>
    let r := on_unmap_notify wm ⟨w, ev⟩
    StepResult.next (applyCmds srv r.2) r.1 r.2
  | XEvent.buttonPress w x y =>
    let r := on_button_press srv wm ⟨w, x, y⟩
    StepResult.next (applyCmds srv r.2) r.1 r.2
  | XEvent.buttonRelease w =>
    let r := on_button_release wm ⟨w, 0, 0⟩
    StepResult.next (applyCmds srv r.2) r.1 r.2
  | XEvent.motionNotify w x y st =>
    let cs := on_motion_notify oracle wm ⟨w, x, y, st⟩
    StepResult.next (applyCmds srv cs) wm cs
  | XEvent.expose w =>
    match on_expose srv wm ⟨w⟩ with
    | ExposeResult.ok cs => StepResult.next (applyCmds srv cs) wm cs
    | ExposeResult.panicked => StepResult.panicked

/-- The per-event command lists produced by running the loop on a finite
event sequence; a panic ends the process (and hence the trace). -/
def runTrace (oracle : WinId → Bool) (srv : Server) (wm : WindowManager) :
    List XEvent → List (List Cmd)
  | [] => []
  | ev :: evs =>
    match step oracle srv wm ev with
    | StepResult.next srv' wm' cs => cs :: runTrace oracle srv' wm' evs
    | StepResult.panicked => []

/-- The state after running the loop on a finite event sequence, `none` if
the process panicked. -/
def runState (oracle : WinId → Bool) (srv : Server) (wm : WindowManager) :
    List XEvent → Option (Server × WindowManager)
  | [] => some (srv, wm)
  | ev :: evs =>
    match step oracle srv wm ev with
    | StepResult.next srv' wm' _ => runState oracle srv' wm' evs
    | StepResult.panicked => none

/-- The loop body of `reparent_initial_windows`: frame each window of the
snapshot in turn, interpreting each call's commands into the server. -/
def scanGo (srv : Server) (wm : WindowManager) : List WinId → Server × WindowManager × List Cmd
  | [] => (srv, wm, [])
  | w :: ws =>
    let r := create_window_frame srv wm w true
    let rest := scanGo (applyCmds srv r.2) r.1 ws
    (rest.1, rest.2.1, r.2 ++ rest.2.2)

/-- `reparent_initial_windows` (src/main.rs:67-96): query the root's
children once and pass each through `create_window_frame(.., true)`. -/
def reparent_initial_windows (srv : Server) (wm : WindowManager) :
    Server × WindowManager × List Cmd :=
  scanGo srv wm (srvChildren srv wm.root)

/-- The skip test of the startup pass: override-redirected or not viewable
(as `create_window_frame` evaluates it with `early = true`). -/
def skipScan (srv : Server) (w : WinId) : Bool :=
  (getWindowAttributes srv w).override_redirect || !(getWindowAttributes srv w).viewable

/-- Number of `XCreateWindow` calls in a command list. -/
def countCreate (cs : List Cmd) : Nat :=
  cs.countP (fun c => match c with | Cmd.createWindow _ _ _ _ _ _ => true | _ => false)

/-! ### Arithmetic helpers for the resize clamp -/

theorem i32ToU32_cast (z : Int) (h0 : 0 ≤ z) (h : z < 4294967296) : (i32ToU32 z : Int) = z := by
  unfold i32ToU32
  rw [Int.emod_eq_of_lt h0 h]
  exact Int.toNat_of_nonneg h0

theorem clamp_bounds (a b : Int) :
    10 ≤ i32ToU32 (max 10 (addI32 a b)) ∧ i32ToU32 (max 10 (addI32 a b)) < 2147483648 := by
  have hb := wrapI32_bounds (a + b)
  unfold addI32 i32ToU32
  have hm : (10 : Int) ≤ max 10 (wrapI32 (a + b)) := le_max_left _ _
  have hm2 : max 10 (wrapI32 (a + b)) < 2147483648 := max_lt (by norm_num) hb.2
  rw [Int.emod_eq_of_lt (by omega) (by omega)]
  omega

/-! ### Concrete states used by the witnesses and counterexamples -/

/-- A managed client `1` framed by window `5`, with cairo resources `6`/`7`. -/
def exWin : Window := ⟨5, 6, 7, ⟨0, 0⟩, ⟨0, 0⟩⟩

/-- A manager (root `0`) managing exactly client `1`. -/
def exWM : WindowManager := ⟨0, [(1, exWin)], ⟨0, 0⟩, ActiveRef.indet, 100⟩

/-- The variant of `exWin` whose recorded drag-origin size is (50,50). -/
def exWinC1 : Window := ⟨5, 6, 7, ⟨0, 0⟩, ⟨50, 50⟩⟩

/-- A server where frame `5` sits at (40,50) sized 70×70 and holds client `1`. -/
def exSrvDrag : Server :=
  [(5, ⟨40, 50, 70, 70, 0, false, true⟩), (1, ⟨10, 10, 50, 50, 5, false, true⟩)]

/-! ### Claim C1 -/

/-- Claim C1: for every drag-origin size and every delta, `resize_window`
issues a client resize whose dimensions are clamped to at least 10, sizes
the frame (container) to the client size plus the decoration padding on
all sides, and — whenever the arithmetic stays inside `i32` — the client
size is exactly `max 10 (origin + delta)` component-wise. -/
theorem resize_clamps_to_minimum (wm : WindowManager) (w : WinId) (win : Window) (delta : Vec2i) :
    ∃ cw ch sa sb,
      resize_window wm w win delta =
        [Cmd.resizeWindow win.frame (cw + 20) (ch + 20),
         Cmd.resizeWindow w cw ch,
         Cmd.surfaceSetSize win.decoration_surface sa sb] ∧
      10 ≤ cw ∧ 10 ≤ ch ∧
      (win.drag_start_size.x < 2147483648 → inI32 ((win.drag_start_size.x : Int) + delta.x) →
        (cw : Int) = max 10 ((win.drag_start_size.x : Int) + delta.x)) ∧
      (win.drag_start_size.y < 2147483648 → inI32 ((win.drag_start_size.y : Int) + delta.y) →
        (ch : Int) = max 10 ((win.drag_start_size.y : Int) + delta.y)) := by
  obtain ⟨h10x, hltx⟩ := clamp_bounds (u32ToI32 win.drag_start_size.x) delta.x
  obtain ⟨h10y, hlty⟩ := clamp_bounds (u32ToI32 win.drag_start_size.y) delta.y
  refine ⟨i32ToU32 (max 10 (addI32 (u32ToI32 win.drag_start_size.x) delta.x)),
          i32ToU32 (max 10 (addI32 (u32ToI32 win.drag_start_size.y) delta.y)),
          u32ToI32 (i32ToU32 (max 10 (addI32 (u32ToI32 win.drag_start_size.x) delta.x)) + 20),
          u32ToI32 (i32ToU32 (max 10 (addI32 (u32ToI32 win.drag_start_size.y) delta.y)) + 20),
          ?_, h10x, h10y, ?_, ?_⟩
  · simp only [resize_window]
    rw [Nat.mod_eq_of_lt (by omega), Nat.mod_eq_of_lt (by omega)]
  · intro hx hr
    have h1 : u32ToI32 win.drag_start_size.x = (win.drag_start_size.x : Int) :=
      u32ToI32_eq_self _ hx
    have h2 : addI32 (u32ToI32 win.drag_start_size.x) delta.x
        = (win.drag_start_size.x : Int) + delta.x := by
      rw [h1]
      exact wrapI32_eq_self _ hr
    rw [h2]
    have hm2 : max 10 ((win.drag_start_size.x : Int) + delta.x) < 2147483648 :=
      max_lt (by norm_num) hr.2
    have hm0 : (0 : Int) ≤ max 10 ((win.drag_start_size.x : Int) + delta.x) :=
      le_trans (by norm_num) (le_max_left _ _)
    exact i32ToU32_cast _ hm0 (by omega)
  · intro hy hr
    have h1 : u32ToI32 win.drag_start_size.y = (win.drag_start_size.y : Int) :=
      u32ToI32_eq_self _ hy
    have h2 : addI32 (u32ToI32 win.drag_start_size.y) delta.y
        = (win.drag_start_size.y : Int) + delta.y := by
      rw [h1]
      exact wrapI32_eq_self _ hr
    rw [h2]
    have hm2 : max 10 ((win.drag_start_size.y : Int) + delta.y) < 2147483648 :=
      max_lt (by norm_num) hr.2
    have hm0 : (0 : Int) ≤ max 10 ((win.drag_start_size.y : Int) + delta.y) :=
      le_trans (by norm_num) (le_max_left _ _)
    exact i32ToU32_cast _ hm0 (by omega)

/-- Concrete instance of C1 at the spec's example: origin (50,50),
delta (-1000,-1000) gives a (10,10) client inside a (30,30) frame. -/
theorem resize_clamps_to_minimum_witness :
    ∃ cw ch sa sb,
      resize_window exWM 1 exWinC1 ⟨-1000, -1000⟩ =
        [Cmd.resizeWindow 5 (cw + 20) (ch + 20),
         Cmd.resizeWindow 1 cw ch,
         Cmd.surfaceSetSize 6 sa sb] ∧
      10 ≤ cw ∧ 10 ≤ ch ∧
      (cw : Int) = max 10 ((50 : Int) + (-1000)) ∧ (ch : Int) = max 10 ((50 : Int) + (-1000)) := by
  obtain ⟨cw, ch, sa, sb, heq, h1, h2, h3, h4⟩ :=
    resize_clamps_to_minimum exWM 1 exWinC1 ⟨-1000, -1000⟩
  refine ⟨cw, ch, sa, sb, heq, h1, h2, ?_, ?_⟩
  · have := h3 (by decide) (by decide)
    simpa using this
  · have := h4 (by decide) (by decide)
    simpa using this

/-! ### Claim C4 -/

/-- Claim C4: `remove_window_frame` on an unregistered identifier is a
no-op (no state change, no commands), and calling it twice in a row on the
same identifier makes the second call a no-op. -/
theorem remove_window_frame_idempotent (wm : WindowManager) (w : WinId) :
    (regLookup wm.windows w = none → remove_window_frame wm w = (wm, [])) ∧
    remove_window_frame (remove_window_frame wm w).1 w = ((remove_window_frame wm w).1, []) := by
  constructor
  · intro h
    simp [remove_window_frame, h]
  · cases h : regLookup wm.windows w with
    | none => simp [remove_window_frame, h]
    | some win => simp [remove_window_frame, h, regLookup_remove_self]

/-- Concrete instance of C4: removing absent client 2 is a no-op, and a
second removal of client 1 right after the first is a no-op. -/
theorem remove_window_frame_idempotent_witness :
    remove_window_frame exWM 2 = (exWM, []) ∧
    remove_window_frame (remove_window_frame exWM 1).1 1 = ((remove_window_frame exWM 1).1, []) :=
  ⟨(remove_window_frame_idempotent exWM 2).1 (by decide),
   (remove_window_frame_idempotent exWM 1).2⟩

/-! ### Claim C6 -/

/-- Claim C6: `on_unmap_notify` leaves the manager unchanged and issues no
commands unless the window is managed and the event did not originate from
the root; in particular an unmap-notify for a managed window whose `event`
field is the root performs no teardown. -/
theorem unmap_notify_root_ignored (wm : WindowManager) (e : XUnmapEvent)
    (h : ¬(regContains wm.windows e.window = true ∧ e.event ≠ wm.root)) :
    on_unmap_notify wm e = (wm, []) := by
  cases hw : regLookup wm.windows e.window with
  | none => simp [on_unmap_notify, hw]
  | some win =>
    have hc : regContains wm.windows e.window = true := by simp [regContains, hw]
    have hroot : e.event = wm.root := by
      by_contra hne
      exact h ⟨hc, hne⟩
    simp [on_unmap_notify, hw, hroot]

/-- Concrete instance of C6: an unmap-notify for managed client 1 whose
event field equals the root (0) is ignored. -/
theorem unmap_notify_root_ignored_witness :
    on_unmap_notify exWM ⟨1, 0⟩ = (exWM, []) :=
  unmap_notify_root_ignored exWM ⟨1, 0⟩ (by decide)

/-! ### Claim C10 -/

/-- Claim C10: for a managed non-root unmap-notify, the handler issues the
four-command teardown inline and then `remove_window_frame` issues the same
four commands again after releasing the cairo surface and context — so the
frame-destroy command appears twice and each cairo release exactly once,
and the registry entry is removed. -/
theorem unmap_notify_double_teardown (wm : WindowManager) (e : XUnmapEvent) (win : Window)
    (hwin : regLookup wm.windows e.window = some win) (hroot : e.event ≠ wm.root) :
    on_unmap_notify wm e =
      ({ wm with windows := regRemove wm.windows e.window },
       [Cmd.unmapWindow win.frame, Cmd.reparentWindow e.window wm.root 0 0,
        Cmd.removeFromSaveSet e.window, Cmd.destroyWindow win.frame,
        Cmd.surfaceDestroy win.decoration_surface, Cmd.contextDestroy win.decoration_context,
        Cmd.unmapWindow win.frame, Cmd.reparentWindow e.window wm.root 0 0,
        Cmd.removeFromSaveSet e.window, Cmd.destroyWindow win.frame]) := by
  have hbeq : (e.event == wm.root) = false := beq_eq_false_iff_ne.mpr hroot
  simp [on_unmap_notify, hwin, hbeq, remove_window_frame]

/-- Concrete instance of C10 at client 1 (frame 5, cairo 6/7), event from
window 3. -/
theorem unmap_notify_double_teardown_witness :
    on_unmap_notify exWM ⟨1, 3⟩ =
      ({ exWM with windows := regRemove exWM.windows 1 },
       [Cmd.unmapWindow 5, Cmd.reparentWindow 1 0 0 0,
        Cmd.removeFromSaveSet 1, Cmd.destroyWindow 5,
        Cmd.surfaceDestroy 6, Cmd.contextDestroy 7,
        Cmd.unmapWindow 5, Cmd.reparentWindow 1 0 0 0,
        Cmd.removeFromSaveSet 1, Cmd.destroyWindow 5]) :=
  unmap_notify_double_teardown exWM ⟨1, 3⟩ exWin rfl (by decide)

/-! ### Claim C5 -/

/-- An empty manager next to a server whose window 5 has the unregistered
child 99 (e.g. a frame whose client entry is already gone, or any foreign
window with children receiving an exposure). -/
def exWMempty : WindowManager := ⟨0, [], ⟨0, 0⟩, ActiveRef.indet, 100⟩

def exSrvExpose : Server :=
  [(5, ⟨0, 0, 220, 170, 0, false, true⟩), (99, ⟨10, 10, 200, 150, 5, false, true⟩)]

/-- Claim C5 (code bug): an exposure event for a window whose first child
is not a registered client makes `on_expose` hit `Option::unwrap` on
`None`, i.e. a Rust panic, and the dispatcher loop terminates instead of
containing the failure. -/
theorem expose_unregistered_child_panics :
    on_expose exSrvExpose exWMempty ⟨5⟩ = ExposeResult.panicked ∧
    step (fun _ => false) exSrvExpose exWMempty (XEvent.expose 5) = StepResult.panicked := by
  constructor <;> rfl

/-! ### Claim C3 -/

/-- The previously created frame record for client 1 (frame 10, cairo
resources 100/101). -/
def exWinOld : Window := ⟨10, 100, 101, ⟨0, 0⟩, ⟨0, 0⟩⟩

/-- A manager already managing client 1 behind frame 10. -/
def exWMdup : WindowManager := ⟨0, [(1, exWinOld)], ⟨0, 0⟩, ActiveRef.indet, 200⟩

/-- The matching server state: client 1 (200×150 at (100,100)) inside frame 10. -/
def exSrvDup : Server :=
  [(1, ⟨100, 100, 200, 150, 10, false, true⟩), (10, ⟨100, 100, 220, 170, 0, false, true⟩)]

/-- Claim C3 counterexample: a map request for the already-managed client 1
is not logged-and-ignored — a second frame (window 200) is created and the
registry entry for client 1 is replaced by the new record. -/
theorem duplicate_map_request_not_ignored :
    Cmd.createWindow 200 0 100 100 220 170 ∈ (on_map_request exSrvDup exWMdup ⟨1⟩).2 ∧
    regLookup (on_map_request exSrvDup exWMdup ⟨1⟩).1.windows 1 =
      some ⟨200, 201, 202, ⟨0, 0⟩, ⟨0, 0⟩⟩ ∧
    regLookup (on_map_request exSrvDup exWMdup ⟨1⟩).1.windows 1 ≠ some exWinOld := by
  refine ⟨by decide, by decide, by decide⟩

/-- Claim C3 amended: `create_window_frame` performs no presence check, so
re-registering an already-present client runs the whole creation again: a
fresh frame is created, the registry entry is replaced by the new record,
all other entries are untouched, and the old frame and its cairo surface
are not destroyed. -/
theorem create_window_frame_replaces_existing (srv : Server) (wm : WindowManager) (w : WinId)
    (old : Window) (_h : regLookup wm.windows w = some old) :
    ∃ fw fh,
      Cmd.createWindow wm.next_id wm.root (getWindowAttributes srv w).x
          (getWindowAttributes srv w).y fw fh ∈ (create_window_frame srv wm w false).2 ∧
      regLookup (create_window_frame srv wm w false).1.windows w =
        some ⟨wm.next_id, wm.next_id + 1, wm.next_id + 2, ⟨0, 0⟩, ⟨0, 0⟩⟩ ∧
      (∀ v, v ≠ w →
        regLookup (create_window_frame srv wm w false).1.windows v = regLookup wm.windows v) ∧
      (∀ c ∈ (create_window_frame srv wm w false).2,
        c ≠ Cmd.destroyWindow old.frame ∧ c ≠ Cmd.surfaceDestroy old.decoration_surface) := by
  have hcf : create_window_frame srv wm w false =
      ({ wm with
          windows := regInsert wm.windows w
            ⟨wm.next_id, wm.next_id + 1, wm.next_id + 2, ⟨0, 0⟩, ⟨0, 0⟩⟩,
          next_id := wm.next_id + 3 },
       [Cmd.createWindow wm.next_id wm.root (getWindowAttributes srv w).x
          (getWindowAttributes srv w).y
          (i32ToU32 (addI32 (getWindowAttributes srv w).width (DECORATION_PADDING * 2)))
          (i32ToU32 (addI32 (getWindowAttributes srv w).height (DECORATION_PADDING * 2))),
        Cmd.grabButton w 1 Mod1Mask,
        Cmd.grabButton w 3 Mod1Mask,
        Cmd.grabKey w 65473 Mod1Mask,
        Cmd.grabKey w 65289 Mod1Mask,
        Cmd.addToSaveSet w,
        Cmd.reparentWindow w wm.next_id DECORATION_PADDING DECORATION_PADDING,
        Cmd.mapWindow wm.next_id,
        Cmd.surfaceCreate (wm.next_id + 1) wm.next_id
          (addI32 (getWindowAttributes srv w).width (DECORATION_PADDING * 2))
          (addI32 (getWindowAttributes srv w).height (DECORATION_PADDING * 2)),
        Cmd.contextCreate (wm.next_id + 2) (wm.next_id + 1)]) := by
    simp [create_window_frame]
  rw [hcf]
  refine ⟨_, _, List.mem_cons_self _ _, regLookup_insert_self _ _ _, ?_, ?_⟩
  · intro v hv
    exact regLookup_insert_ne _ _ _ _ hv
  · intro c hc
    simp only [List.mem_cons, List.not_mem_nil, or_false] at hc
    rcases hc with rfl | rfl | rfl | rfl | rfl | rfl | rfl | rfl | rfl | rfl <;>
      exact ⟨by simp, by simp⟩

/-- Concrete instance of the amended C3 at `exWMdup`. -/
theorem create_window_frame_replaces_existing_witness :
    ∃ fw fh,
      Cmd.createWindow 200 0 100 100 fw fh ∈ (create_window_frame exSrvDup exWMdup 1 false).2 ∧
      regLookup (create_window_frame exSrvDup exWMdup 1 false).1.windows 1 =
        some ⟨200, 201, 202, ⟨0, 0⟩, ⟨0, 0⟩⟩ ∧
      (∀ v, v ≠ 1 →
        regLookup (create_window_frame exSrvDup exWMdup 1 false).1.windows v =
          regLookup exWMdup.windows v) ∧
      (∀ c ∈ (create_window_frame exSrvDup exWMdup 1 false).2,
        c ≠ Cmd.destroyWindow 10 ∧ c ≠ Cmd.surfaceDestroy 100) :=
  create_window_frame_replaces_existing exSrvDup exWMdup 1 exWinOld (by decide)

/-! ### Claim C8 -/

/-- Claim C8 counterexample: `on_button_release` stores an indeterminate
value (`mem::uninitialized()`), not a cleared one.  If the leftover bit
pattern still compares equal to a managed window's entry — here the oracle
returns `true`, as when the old pointer value is retained — a motion event
arriving after the release still moves the window. -/
theorem motion_after_release_moves_window :
    runTrace (fun _ => true) exSrvDrag exWM
        [XEvent.buttonPress 1 300 300, XEvent.buttonRelease 1, XEvent.motionNotify 1 305 310 264]
      = [[Cmd.raiseWindow 5], [], [Cmd.moveWindow 5 45 60]] := by
  decide

/-- Claim C8 amended: button release overwrites `active_window` with an
indeterminate value rather than a definite cleared state; provided that
indeterminate pattern matches no managed window, no subsequent motion event
issues any command until the next button press. -/
theorem button_release_indeterminate (oracle : WinId → Bool) (hor : ∀ v, oracle v = false)
    (wm : WindowManager) (e : XButtonEvent) :
    on_button_release wm e = ({ wm with active_window := ActiveRef.indet }, []) ∧
    ∀ e2 : XMotionEvent,
      on_motion_notify oracle { wm with active_window := ActiveRef.indet } e2 = [] := by
  refine ⟨rfl, ?_⟩
  intro e2
  cases hw : regLookup wm.windows e2.window with
  | none => simp [on_motion_notify, hw]
  | some win => simp [on_motion_notify, hw, activeMatches, hor]

/-- Concrete instance of the amended C8 at `exWM`. -/
theorem button_release_indeterminate_witness :
    on_button_release exWM ⟨1, 0, 0⟩ = ({ exWM with active_window := ActiveRef.indet }, []) ∧
    on_motion_notify (fun _ => false) { exWM with active_window := ActiveRef.indet }
      ⟨1, 305, 310, 264⟩ = [] := by
  have h := button_release_indeterminate (fun _ => false) (fun v => rfl) exWM ⟨1, 0, 0⟩
  exact ⟨h.1, h.2 ⟨1, 305, 310, 264⟩⟩

/-! ### Claim C7 -/

/-- A fresh manager (nothing managed yet, ids from 10) facing a server with
one client window 1, 200×150 at (100,100). -/
def exWMstart : WindowManager := ⟨0, [], ⟨0, 0⟩, ActiveRef.indet, 10⟩

def exSrvMap : Server := [(1, ⟨100, 100, 200, 150, 0, false, true⟩)]

/-- Claim C7 counterexample: after a map request frames client 1 (client
200×150, frame 220×170), a button press records the frame's padded
geometry as the drag origin size, so the following zero-delta resize
commands the client to 220×170 — the client's size is not left unchanged. -/
theorem zero_delta_resize_inflates_client :
    (runState (fun _ => false) exSrvMap exWMstart
        [XEvent.mapRequest 1, XEvent.buttonPress 1 500 500]).map
        (fun p => (regLookup p.2.windows 1).map (fun win => win.drag_start_size))
      = some (some ⟨220, 170⟩) ∧
    (runTrace (fun _ => false) exSrvMap exWMstart
        [XEvent.mapRequest 1, XEvent.buttonPress 1 500 500,
         XEvent.motionNotify 1 500 500 1032])[2]?
      = some [Cmd.resizeWindow 10 240 190, Cmd.resizeWindow 1 220 170,
              Cmd.surfaceSetSize 11 240 190] ∧
    (srvLookup exSrvMap 1).map (fun sw => (sw.width, sw.height)) = some (200, 150) := by
  refine ⟨by decide, by decide, by decide⟩

/-- Claim C7 amended: on a managed window, button press records the
*frame's* (container's) server geometry — not the client's — as
`drag_start`/`drag_start_size`, sets the anchor to the pointer's root
coordinates, raises the frame and marks the window active; consequently a
zero-delta resize sizes the client to the container's padded size. -/
theorem button_press_records_frame_geometry (srv : Server) (wm : WindowManager)
    (e : XButtonEvent) (win : Window) (sw : SrvWin)
    (hwin : regLookup wm.windows e.window = some win)
    (hgeo : srvLookup srv win.frame = some sw) :
    on_button_press srv wm e =
      ({ wm with
          windows := regInsert wm.windows e.window
            { win with drag_start := ⟨sw.x, sw.y⟩, drag_start_size := ⟨sw.width, sw.height⟩ },
          drag_start := ⟨e.x_root, e.y_root⟩,
          active_window := ActiveRef.ref e.window },
       [Cmd.raiseWindow win.frame]) ∧
    (10 ≤ sw.width → 10 ≤ sw.height →
     sw.width + 20 < 2147483648 → sw.height + 20 < 2147483648 →
      resize_window wm e.window
          { win with drag_start := ⟨sw.x, sw.y⟩, drag_start_size := ⟨sw.width, sw.height⟩ }
          ⟨0, 0⟩ =
        [Cmd.resizeWindow win.frame (sw.width + 20) (sw.height + 20),
         Cmd.resizeWindow e.window sw.width sw.height,
         Cmd.surfaceSetSize win.decoration_surface ((sw.width : Int) + 20)
           ((sw.height : Int) + 20)]) := by
  constructor
  · simp [on_button_press, hwin, hgeo]
  · intro h10x h10y hltx hlty
    have hwx : sw.width < 2147483648 := by omega
    have hwy : sw.height < 2147483648 := by omega
    have e1 : addI32 (u32ToI32 sw.width) 0 = (sw.width : Int) := by
      rw [u32ToI32_eq_self _ hwx]
      unfold addI32
      rw [add_zero]
      exact wrapI32_eq_self _ ⟨by omega, by omega⟩
    have e2 : addI32 (u32ToI32 sw.height) 0 = (sw.height : Int) := by
      rw [u32ToI32_eq_self _ hwy]
      unfold addI32
      rw [add_zero]
      exact wrapI32_eq_self _ ⟨by omega, by omega⟩
    have e3 : max 10 ((sw.width : Int)) = (sw.width : Int) := max_eq_right (by omega)
    have e4 : max 10 ((sw.height : Int)) = (sw.height : Int) := max_eq_right (by omega)
    have e5 : i32ToU32 ((sw.width : Int)) = sw.width := by unfold i32ToU32; omega
    have e6 : i32ToU32 ((sw.height : Int)) = sw.height := by unfold i32ToU32; omega
    simp only [resize_window, e1, e2, e3, e4, e5, e6]
    rw [Nat.mod_eq_of_lt (by omega), Nat.mod_eq_of_lt (by omega)]
    rw [u32ToI32_eq_self _ (by omega), u32ToI32_eq_self _ (by omega)]
    push_cast
    rfl

/-- Concrete instance of the amended C7: pressing on client 1 records frame
5's geometry (40,50,70,70) and a zero-delta resize then commands the client
to 70×70 inside a 90×90 frame. -/
theorem button_press_records_frame_geometry_witness :
    on_button_press exSrvDrag exWM ⟨1, 300, 300⟩ =
      ({ exWM with
          windows := regInsert exWM.windows 1
            { exWin with drag_start := ⟨40, 50⟩, drag_start_size := ⟨70, 70⟩ },
          drag_start := ⟨300, 300⟩,
          active_window := ActiveRef.ref 1 },
       [Cmd.raiseWindow 5]) ∧
    resize_window exWM 1 { exWin with drag_start := ⟨40, 50⟩, drag_start_size := ⟨70, 70⟩ }
        ⟨0, 0⟩ =
      [Cmd.resizeWindow 5 90 90, Cmd.resizeWindow 1 70 70, Cmd.surfaceSetSize 6 90 90] := by
  have h := button_press_records_frame_geometry exSrvDrag exWM ⟨1, 300, 300⟩ exWin
    ⟨40, 50, 70, 70, 0, false, true⟩ rfl rfl
  refine ⟨h.1, ?_⟩
  have h2 := h.2 (by decide) (by decide) (by decide) (by decide)
  simpa using h2

/-! ### Claim C2 -/

/-- While a window is the active drag target, a run of motion events with
Mod1 and Button1 held produces, for each motion, exactly one move command
computed from the stored anchor — the manager state is not changed by
motion events (`on_motion_notify` takes `&WindowManager`). -/
theorem runTrace_motions (oracle : WinId → Bool) (w : WinId) (win : Window) (st : Nat)
    (wm : WindowManager) (hwin : regLookup wm.windows w = some win)
    (hact : wm.active_window = ActiveRef.ref w)
    (hmod : st &&& Mod1Mask ≠ 0) (hbtn : st &&& Button1Mask ≠ 0) :
    ∀ (ps : List (Int × Int)) (srv : Server),
      runTrace oracle srv wm (ps.map (fun p => XEvent.motionNotify w p.1 p.2 st)) =
        ps.map (fun p =>
          [Cmd.moveWindow win.frame (addI32 win.drag_start.x (subI32 p.1 wm.drag_start.x))
            (addI32 win.drag_start.y (subI32 p.2 wm.drag_start.y))])
  | [], _ => rfl
  | p :: ps, srv => by
    have hcs : on_motion_notify oracle wm ⟨w, p.1, p.2, st⟩ =
        [Cmd.moveWindow win.frame (addI32 win.drag_start.x (subI32 p.1 wm.drag_start.x))
          (addI32 win.drag_start.y (subI32 p.2 wm.drag_start.y))] := by
      simp [on_motion_notify, hwin, hact, activeMatches, hmod, hbtn, move_window, motionDelta]
    simp only [List.map_cons, runTrace, step, hcs]
    rw [runTrace_motions oracle w win st wm hwin hact hmod hbtn ps _]

/-- Claim C2: after a button press at `(p0x, p0y)` on managed window `w`
whose frame sits at `(sw.x, sw.y)`, the `n`-th subsequent motion event at
`pn` (Mod1 and Button1 held) commands the window position
`origin + (pn - p0)` — the delta is taken from the fixed press anchor, not
accumulated between successive motions. -/
theorem drag_motion_anchored (oracle : WinId → Bool) (srv : Server) (wm : WindowManager)
    (w : WinId) (win : Window) (sw : SrvWin)
    (hwin : regLookup wm.windows w = some win)
    (hgeo : srvLookup srv win.frame = some sw)
    (p0x p0y : Int) (st : Nat)
    (hmod : st &&& Mod1Mask ≠ 0) (hbtn : st &&& Button1Mask ≠ 0)
    (ps : List (Int × Int)) (n : Nat) (hn : n < ps.length)
    (hran : ∀ p ∈ ps, inI32 (p.1 - p0x) ∧ inI32 (p.2 - p0y) ∧
      inI32 (sw.x + (p.1 - p0x)) ∧ inI32 (sw.y + (p.2 - p0y))) :
    (runTrace oracle srv wm
        (XEvent.buttonPress w p0x p0y ::
          ps.map (fun p => XEvent.motionNotify w p.1 p.2 st)))[n + 1]? =
      some [Cmd.moveWindow win.frame (sw.x + ((ps.get ⟨n, hn⟩).1 - p0x))
        (sw.y + ((ps.get ⟨n, hn⟩).2 - p0y))] := by
  have hpress : on_button_press srv wm ⟨w, p0x, p0y⟩ =
      ({ wm with
          windows := regInsert wm.windows w
            { win with drag_start := ⟨sw.x, sw.y⟩, drag_start_size := ⟨sw.width, sw.height⟩ },
          drag_start := ⟨p0x, p0y⟩,
          active_window := ActiveRef.ref w },
       [Cmd.raiseWindow win.frame]) := by
    simp [on_button_press, hwin, hgeo]
  have hwin1 : regLookup ({ wm with
      windows := regInsert wm.windows w
        { win with drag_start := ⟨sw.x, sw.y⟩, drag_start_size := ⟨sw.width, sw.height⟩ },
      drag_start := ⟨p0x, p0y⟩,
      active_window := ActiveRef.ref w } : WindowManager).windows w =
      some { win with drag_start := ⟨sw.x, sw.y⟩, drag_start_size := ⟨sw.width, sw.height⟩ } :=
    regLookup_insert_self _ _ _
  have hmotions := runTrace_motions oracle w
    { win with drag_start := ⟨sw.x, sw.y⟩, drag_start_size := ⟨sw.width, sw.height⟩ } st
    { wm with
        windows := regInsert wm.windows w
          { win with drag_start := ⟨sw.x, sw.y⟩, drag_start_size := ⟨sw.width, sw.height⟩ },
        drag_start := ⟨p0x, p0y⟩,
        active_window := ActiveRef.ref w }
    hwin1 rfl hmod hbtn ps (applyCmds srv [Cmd.raiseWindow win.frame])
  simp only [runTrace, step, hpress]
  rw [hmotions]
  rw [List.getElem?_cons_succ, List.getElem?_map]
  rw [List.getElem?_eq_getElem hn]
  obtain ⟨hr1, hr2, hr3, hr4⟩ := hran (ps.get ⟨n, hn⟩) (ps.get_mem n hn)
  have hd1 : subI32 (ps[n].1) p0x = ps[n].1 - p0x := wrapI32_eq_self _ hr1
  have hd2 : subI32 (ps[n].2) p0y = ps[n].2 - p0y := wrapI32_eq_self _ hr2
  have ha1 : addI32 sw.x (ps[n].1 - p0x) = sw.x + (ps[n].1 - p0x) := wrapI32_eq_self _ hr3
  have ha2 : addI32 sw.y (ps[n].2 - p0y) = sw.y + (ps[n].2 - p0y) := wrapI32_eq_self _ hr4
  simp [hd1, hd2, ha1, ha2]

/-- Concrete instance of C2: press at (100,100) on client 1 (frame 5 at
(40,50)); the second motion, at (110,90), commands position
(40 + 10, 50 - 10) = (50, 40). -/
theorem drag_motion_anchored_witness :
    (runTrace (fun _ => false) exSrvDrag exWM
        (XEvent.buttonPress 1 100 100 ::
          ([((103 : Int), (104 : Int)), (110, 90)]).map
            (fun p => XEvent.motionNotify 1 p.1 p.2 264)))[2]? =
      some [Cmd.moveWindow 5 (40 + ((110 : Int) - 100)) (50 + ((90 : Int) - 100))] :=
  drag_motion_anchored (fun _ => false) exSrvDrag exWM 1 exWin
    ⟨40, 50, 70, 70, 0, false, true⟩ rfl rfl 100 100 264 (by decide) (by decide)
    [(103, 104), (110, 90)] 1 (by decide) (by decide)

/-! ### Claim C9 -/

theorem countP_split (p : WinId → Bool) (l : List WinId) :
    l.length = l.countP p + l.countP (fun a => !p a) := by
  induction l with
  | nil => rfl
  | cons a l ih =>
    cases hp : p a <;> simp [List.countP_cons, hp, ih] <;> omega

theorem countCreate_append (a b : List Cmd) :
    countCreate (a ++ b) = countCreate a + countCreate b := by
  simp [countCreate, List.countP_append]

/-- When the skip test fails, `create_window_frame` runs its full creation
sequence. -/
theorem create_window_frame_run (srv : Server) (wm : WindowManager) (w : WinId) (early : Bool)
    (h : (early && ((getWindowAttributes srv w).override_redirect
        || !(getWindowAttributes srv w).viewable)) = false) :
    create_window_frame srv wm w early =
      ({ wm with
          windows := regInsert wm.windows w
            ⟨wm.next_id, wm.next_id + 1, wm.next_id + 2, ⟨0, 0⟩, ⟨0, 0⟩⟩,
          next_id := wm.next_id + 3 },
       [Cmd.createWindow wm.next_id wm.root (getWindowAttributes srv w).x
          (getWindowAttributes srv w).y
          (i32ToU32 (addI32 (getWindowAttributes srv w).width (DECORATION_PADDING * 2)))
          (i32ToU32 (addI32 (getWindowAttributes srv w).height (DECORATION_PADDING * 2))),
        Cmd.grabButton w 1 Mod1Mask,
        Cmd.grabButton w 3 Mod1Mask,
        Cmd.grabKey w 65473 Mod1Mask,
        Cmd.grabKey w 65289 Mod1Mask,
        Cmd.addToSaveSet w,
        Cmd.reparentWindow w wm.next_id DECORATION_PADDING DECORATION_PADDING,
        Cmd.mapWindow wm.next_id,
        Cmd.surfaceCreate (wm.next_id + 1) wm.next_id
          (addI32 (getWindowAttributes srv w).width (DECORATION_PADDING * 2))
          (addI32 (getWindowAttributes srv w).height (DECORATION_PADDING * 2)),
        Cmd.contextCreate (wm.next_id + 2) (wm.next_id + 1)]) := by
  simp only [create_window_frame]
  rw [h]
  simp

/-- When the skip test passes in the pre-existing pass, `create_window_frame`
does nothing. -/
theorem create_window_frame_skipped (srv : Server) (wm : WindowManager) (w : WinId)
    (h : ((getWindowAttributes srv w).override_redirect
        || !(getWindowAttributes srv w).viewable) = true) :
    create_window_frame srv wm w true = (wm, []) := by
  simp only [create_window_frame, Bool.true_and]
  rw [h]
  simp

/-- The induction behind C9: over a snapshot list of distinct, fresh,
unregistered windows whose server entries the loop's own commands do not
touch, the scan registers and creates exactly one frame per non-skipped
window and leaves every other registry key unchanged. -/
theorem scanGo_spec (srv0 : Server) :
    ∀ (l : List WinId) (srv : Server) (wm : WindowManager),
      (∀ v ∈ l, srvLookup srv v = srvLookup srv0 v) →
      l.Nodup →
      (∀ v ∈ l, v < wm.next_id) →
      (∀ v ∈ l, regLookup wm.windows v = none) →
      (scanGo srv wm l).2.1.windows.length
          = wm.windows.length + l.countP (fun v => !skipScan srv0 v) ∧
      countCreate (scanGo srv wm l).2.2 = l.countP (fun v => !skipScan srv0 v) ∧
      (∀ v ∈ l, (regLookup (scanGo srv wm l).2.1.windows v).isSome = !skipScan srv0 v) ∧
      (∀ v, v ∉ l → regLookup (scanGo srv wm l).2.1.windows v = regLookup wm.windows v)
  | [], srv, wm, _, _, _, _ => by
    refine ⟨by simp [scanGo], by simp [scanGo, countCreate], by simp, fun v _ => rfl⟩
  | w :: l, srv, wm, h1, h2, h3, h4 => by
    have hwl : w ∉ l := (List.nodup_cons.mp h2).1
    have hnd : l.Nodup := (List.nodup_cons.mp h2).2
    have hattr : getWindowAttributes srv w = getWindowAttributes srv0 w := by
      unfold getWindowAttributes
      rw [h1 w (List.mem_cons_self w l)]
    have hcond : ((getWindowAttributes srv w).override_redirect
        || !(getWindowAttributes srv w).viewable) = skipScan srv0 w := by
      rw [hattr]
      rfl
    cases hskip : skipScan srv0 w with
    | true =>
      have hcf : create_window_frame srv wm w true = (wm, []) :=
        create_window_frame_skipped srv wm w (hcond.trans hskip)
      have hscan : scanGo srv wm (w :: l) =
          ((scanGo srv wm l).1, (scanGo srv wm l).2.1, [] ++ (scanGo srv wm l).2.2) := by
        simp only [scanGo, hcf]
        rfl
      obtain ⟨ih1, ih2, ih3, ih4⟩ := scanGo_spec srv0 l srv wm
        (fun v hv => h1 v (List.mem_cons_of_mem _ hv)) hnd
        (fun v hv => h3 v (List.mem_cons_of_mem _ hv))
        (fun v hv => h4 v (List.mem_cons_of_mem _ hv))
      refine ⟨?_, ?_, ?_, ?_⟩
      · rw [hscan]
        simp only [List.countP_cons, hskip, ih1]
        simp
      · rw [hscan]
        simp only [List.nil_append, List.countP_cons, hskip, ih2]
        simp
      · intro v hv
        rw [hscan]
        rcases List.mem_cons.mp hv with rfl | hv2
        · have hv4 := ih4 v hwl
          show (regLookup (scanGo srv wm l).2.1.windows v).isSome = !skipScan srv0 v
          rw [hv4, h4 v (List.mem_cons_self v l), hskip]
          rfl
        · exact ih3 v hv2
      · intro v hv
        rw [hscan]
        exact ih4 v (fun hvl => hv (List.mem_cons_of_mem _ hvl))
    | false =>
      have hrun := create_window_frame_run srv wm w true (by rw [Bool.true_and, hcond, hskip])
      have hwmN : (create_window_frame srv wm w true).1 =
          { wm with
              windows := regInsert wm.windows w
                ⟨wm.next_id, wm.next_id + 1, wm.next_id + 2, ⟨0, 0⟩, ⟨0, 0⟩⟩,
              next_id := wm.next_id + 3 } := by
        rw [hrun]
      have hcsN : countCreate (create_window_frame srv wm w true).2 = 1 := by
        rw [hrun]
        simp [countCreate]
      have htg : ∀ c ∈ (create_window_frame srv wm w true).2,
          cmdWindow c = none ∨ cmdWindow c = some w ∨ cmdWindow c = some wm.next_id := by
        rw [hrun]
        intro c hc
        simp only [List.mem_cons, List.not_mem_nil, or_false] at hc
        rcases hc with rfl | rfl | rfl | rfl | rfl | rfl | rfl | rfl | rfl | rfl <;>
          simp [cmdWindow]
      have hscan : scanGo srv wm (w :: l) =
          ((scanGo (applyCmds srv (create_window_frame srv wm w true).2)
              (create_window_frame srv wm w true).1 l).1,
           (scanGo (applyCmds srv (create_window_frame srv wm w true).2)
              (create_window_frame srv wm w true).1 l).2.1,
           (create_window_frame srv wm w true).2 ++
             (scanGo (applyCmds srv (create_window_frame srv wm w true).2)
                (create_window_frame srv wm w true).1 l).2.2) := by
        simp only [scanGo]
      have hH1 : ∀ v ∈ l, srvLookup (applyCmds srv (create_window_frame srv wm w true).2) v
          = srvLookup srv0 v := by
        intro v hv
        have hvlt : v < wm.next_id := h3 v (List.mem_cons_of_mem _ hv)
        have hvw : v ≠ w := fun heq => hwl (heq ▸ hv)
        have hne : ∀ c ∈ (create_window_frame srv wm w true).2, cmdWindow c ≠ some v := by
          intro c hc
          rcases htg c hc with hx | hx | hx <;> rw [hx]
          · exact fun hh => Option.noConfusion hh
          · intro hh
            exact hvw (Option.some.inj hh).symm
          · intro hh
            have heq2 : wm.next_id = v := Option.some.inj hh
            exact absurd hvlt (by rw [heq2]; exact Nat.lt_irrefl v)
        rw [srvLookup_applyCmds_ne v _ srv hne]
        exact h1 v (List.mem_cons_of_mem _ hv)
      have hH3 : ∀ v ∈ l, v < (create_window_frame srv wm w true).1.next_id := by
        intro v hv
        rw [hwmN]
        show v < wm.next_id + 3
        exact Nat.lt_of_lt_of_le (h3 v (List.mem_cons_of_mem _ hv)) (Nat.le_add_right _ 3)
      have hH4 : ∀ v ∈ l, regLookup (create_window_frame srv wm w true).1.windows v = none := by
        intro v hv
        have hvw : v ≠ w := fun heq => hwl (heq ▸ hv)
        rw [hwmN]
        show regLookup (regInsert wm.windows w
          ⟨wm.next_id, wm.next_id + 1, wm.next_id + 2, ⟨0, 0⟩, ⟨0, 0⟩⟩) v = none
        rw [regLookup_insert_ne _ _ _ _ hvw]
        exact h4 v (List.mem_cons_of_mem _ hv)
      obtain ⟨ih1, ih2, ih3, ih4⟩ := scanGo_spec srv0 l
        (applyCmds srv (create_window_frame srv wm w true).2)
        (create_window_frame srv wm w true).1 hH1 hnd hH3 hH4
      refine ⟨?_, ?_, ?_, ?_⟩
      · rw [hscan]
        show (scanGo (applyCmds srv (create_window_frame srv wm w true).2)
            (create_window_frame srv wm w true).1 l).2.1.windows.length
          = wm.windows.length + (w :: l).countP (fun v => !skipScan srv0 v)
        rw [ih1, hwmN]
        show (regInsert wm.windows w
            ⟨wm.next_id, wm.next_id + 1, wm.next_id + 2, ⟨0, 0⟩, ⟨0, 0⟩⟩).length
            + l.countP (fun v => !skipScan srv0 v)
          = wm.windows.length + (w :: l).countP (fun v => !skipScan srv0 v)
        rw [regInsert_length_of_not_mem _ _ _ (h4 w (List.mem_cons_self w l))]
        rw [List.countP_cons]
        simp only [hskip, Bool.not_false, if_true]
        omega
      · rw [hscan]
        show countCreate ((create_window_frame srv wm w true).2 ++
            (scanGo (applyCmds srv (create_window_frame srv wm w true).2)
              (create_window_frame srv wm w true).1 l).2.2)
          = (w :: l).countP (fun v => !skipScan srv0 v)
        rw [countCreate_append, hcsN, ih2, List.countP_cons]
        simp only [hskip, Bool.not_false, if_true]
        omega
      · intro v hv
        rw [hscan]
        show (regLookup (scanGo (applyCmds srv (create_window_frame srv wm w true).2)
            (create_window_frame srv wm w true).1 l).2.1.windows v).isSome
          = !skipScan srv0 v
        rcases List.mem_cons.mp hv with rfl | hv2
        · rw [ih4 v hwl, hwmN]
          show (regLookup (regInsert wm.windows v
            ⟨wm.next_id, wm.next_id + 1, wm.next_id + 2, ⟨0, 0⟩, ⟨0, 0⟩⟩) v).isSome
            = !skipScan srv0 v
          rw [regLookup_insert_self, hskip]
          rfl
        · exact ih3 v hv2
      · intro v hv
        rw [hscan]
        show regLookup (scanGo (applyCmds srv (create_window_frame srv wm w true).2)
            (create_window_frame srv wm w true).1 l).2.1.windows v
          = regLookup wm.windows v
        have hvw : v ≠ w := fun heq => hv (heq ▸ List.mem_cons_self w l)
        rw [ih4 v (fun hvl => hv (List.mem_cons_of_mem _ hvl)), hwmN]
        show regLookup (regInsert wm.windows w
          ⟨wm.next_id, wm.next_id + 1, wm.next_id + 2, ⟨0, 0⟩, ⟨0, 0⟩⟩) v
          = regLookup wm.windows v
        exact regLookup_insert_ne _ _ _ _ hvw

/-- Claim C9: over a startup scan of the root's N pre-existing top-level
windows, of which M are override-redirected or not viewable, exactly N - M
frames are created (one `XCreateWindow` each) and registered; every
non-skipped window ends up registered, every skipped one does not. -/
theorem startup_scan_frames (srv : Server) (wm : WindowManager)
    (hkeys : (srv.map (fun p => p.1)).Nodup)
    (hempty : wm.windows = [])
    (hfresh : ∀ p ∈ srv, p.1 < wm.next_id) :
    (reparent_initial_windows srv wm).2.1.windows.length
        = (srvChildren srv wm.root).countP (fun v => !skipScan srv v) ∧
    countCreate (reparent_initial_windows srv wm).2.2
        = (srvChildren srv wm.root).countP (fun v => !skipScan srv v) ∧
    (∀ v ∈ srvChildren srv wm.root,
      (regLookup (reparent_initial_windows srv wm).2.1.windows v).isSome = !skipScan srv v) ∧
    (srvChildren srv wm.root).length
        = (srvChildren srv wm.root).countP (fun v => skipScan srv v)
          + (srvChildren srv wm.root).countP (fun v => !skipScan srv v) := by
  have hnodup : (srvChildren srv wm.root).Nodup := by
    have hsub : List.Sublist (srvChildren srv wm.root) (srv.map (fun p => p.1)) := by
      unfold srvChildren
      exact List.Sublist.map _ (List.filter_sublist srv)
    exact hkeys.sublist hsub
  have hmemlt : ∀ v ∈ srvChildren srv wm.root, v < wm.next_id := by
    intro v hv
    unfold srvChildren at hv
    obtain ⟨q, hq, rfl⟩ := List.mem_map.mp hv
    exact hfresh q (List.mem_of_mem_filter hq)
  have hlookupnil : ∀ v ∈ srvChildren srv wm.root, regLookup wm.windows v = none := by
    intro v _
    rw [hempty]
    rfl
  obtain ⟨s1, s2, s3, s4⟩ := scanGo_spec srv (srvChildren srv wm.root) srv wm
    (fun v _ => rfl) hnodup hmemlt hlookupnil
  refine ⟨?_, s2, s3, ?_⟩
  · show (scanGo srv wm (srvChildren srv wm.root)).2.1.windows.length = _
    rw [s1, hempty]
    exact Nat.zero_add _
  · exact countP_split _ _

/-- A server of three root children — window 1 manageable, window 2
override-redirected, window 3 unmapped — plus a non-root child 7.  So
N = 3, M = 2: exactly one frame. -/
def exSrvScan : Server :=
  [(1, ⟨0, 0, 100, 100, 0, false, true⟩),
   (2, ⟨0, 0, 100, 100, 0, true, true⟩),
   (3, ⟨0, 0, 100, 100, 0, false, false⟩),
   (7, ⟨0, 0, 50, 50, 1, false, true⟩)]

def exWMscan : WindowManager := ⟨0, [], ⟨0, 0⟩, ActiveRef.indet, 100⟩

/-- Concrete instance of C9 on `exSrvScan`: three pre-existing windows of
which two are skipped, one frame created and registered. -/
theorem startup_scan_frames_witness :
    (reparent_initial_windows exSrvScan exWMscan).2.1.windows.length = 1 ∧
    countCreate (reparent_initial_windows exSrvScan exWMscan).2.2 = 1 ∧
    (regLookup (reparent_initial_windows exSrvScan exWMscan).2.1.windows 1).isSome = true ∧
    (regLookup (reparent_initial_windows exSrvScan exWMscan).2.1.windows 2).isSome = false := by
  have h := startup_scan_frames exSrvScan exWMscan (by decide) rfl (by decide)
  refine ⟨h.1.trans (by decide), h.2.1.trans (by decide), ?_, ?_⟩
  · exact (h.2.2.1 1 (by decide)).trans (by decide)
  · exact (h.2.2.1 2 (by decide)).trans (by decide)
